import Mathlib

/-!
Verification of `examples/realign_demos.py`.

The file embeds the subject-grouping factories and the demo orchestration
loop of the script as executable Lean definitions, together with the POSIX
path helpers (`os.path.basename`, `os.path.dirname`, `os.path.join`) the
script relies on, and proves the behavioural properties claimed for them.
-/

/-- The POSIX path separator. -/
def slash : Char := '/'

/-- Boolean test: the character is not the separator. -/
def notSlash (c : Char) : Bool := c != slash

/-- Boolean test: the character is the separator. -/
def isSlash (c : Char) : Bool := c == slash

/-- `os.path.basename`: the part of the path after the last separator
(`posixpath.basename`: `p[p.rfind(sep)+1:]`). -/
def basename (p : String) : String := ⟨p.data.rtakeWhile notSlash⟩

/-- `os.path.dirname` (`posixpath.dirname`): everything up to the last
separator; trailing separators are stripped unless the result consists of
separators only (or is empty). -/
def dirname (p : String) : String :=
  let head := p.data.rdropWhile notSlash
  if head = [] ∨ head.all isSlash then ⟨head⟩ else ⟨head.rdropWhile isSlash⟩

/-- Python `needle in hay` on strings: substring containment. -/
def strContains (needle hay : String) : Bool := decide (needle.data <:+: hay.data)

/-- `os.path.join` for two components (`posixpath.join`): an absolute second
component replaces the first; otherwise the parts are glued with a single
separator unless the first already ends with one (or is empty). -/
def joinPath (a b : String) : String :=
  if b.data.head? = some slash then b
  else if a.data = [] ∨ a.data.getLast? = some slash then a ++ b
  else a ++ "/" ++ b

/-- The duck-typed `func` field of a subject record: the script passes either
a single path string or a list of path strings to the engine. -/
inductive Func where
  | single (p : String)
  | multi (ps : List String)
deriving DecidableEq

/-- `SubjectData = namedtuple('SubjectData', 'subject_id func output_dir')`. -/
structure SubjectData where
  subject_id : String
  func : Func
  output_dir : String
deriving DecidableEq

/-- `"session%i" % session`. -/
def sessionTag (session : Nat) : String := "session" ++ toString session

/-- `session_func = [x for x in nyu_data.func if "session%i" % session in x]`. -/
def session_filter (funcs : List String) (session : Nat) : List String :=
  funcs.filter (fun x => strContains (sessionTag session) x)

/-- `os.path.basename(os.path.dirname(os.path.dirname(x)))`: the name of the
directory two levels above the file. -/
def subject_id_of (x : String) : String := basename (dirname (dirname x))

/-- The distinct subject identifiers of the session-filtered listing:
`set([os.path.basename(os.path.dirname(os.path.dirname(x))) for x in session_func])`. -/
def derived_ids (funcs : List String) (session : Nat) : List String :=
  ((session_filter funcs session).map subject_id_of).dedup

/-- `func = [x for x in session_func if subject_id in x]`. -/
def subject_matches (funcs : List String) (session : Nat) (sid : String) : List String :=
  (session_filter funcs session).filter (fun x => strContains sid x)

/-- The record `demo_nyu_rest`'s factory yields for one subject identifier:
`SubjectData(subject_id, func, os.path.join(output_dir, "session%i" % session, subject_id))`. -/
def nyu_record (output_dir : String) (session : Nat) (sid f : String) : SubjectData :=
  { subject_id := sid, func := Func.single f,
    output_dir := joinPath (joinPath output_dir (sessionTag session)) sid }

deriving instance DecidableEq for Except

/-- Effectful map over a list in `Except`, stopping at the first error — the
behaviour of a Python generator whose body can raise. -/
def exceptMapM {α β ε : Type} (f : α → Except ε β) : List α → Except ε (List β)
  | [] => Except.ok []
  | a :: l =>
    match f a with
    | Except.error e => Except.error e
    | Except.ok b =>
      match exceptMapM f l with
      | Except.error e => Except.error e
      | Except.ok bs => Except.ok (b :: bs)

/-- The body of the `subject_factory` generator in `demo_nyu_rest` for one
derived subject identifier: `assert len(func) == 1; func = func[0]; yield
SubjectData(...)`.  A failing assertion is the `AmbiguousSubjectError` of the
specification. -/
def nyu_yield (funcs : List String) (output_dir : String) (session : Nat)
    (sid : String) : Except String SubjectData :=
  match subject_matches funcs session sid with
  | [f] => Except.ok (nyu_record output_dir session sid f)
  | _ => Except.error "AmbiguousSubjectError"

/-- `subject_factory` of `demo_nyu_rest`: filter the raw listing by session
tag, derive the distinct grand-parent directory names as subject identifiers,
and yield one record per identifier, asserting a unique matching path. -/
def nyu_subject_factory (funcs : List String) (output_dir : String) (session : Nat) :
    Except String (List SubjectData) :=
  exceptMapM (nyu_yield funcs output_dir session) (derived_ids funcs session)

/-- `subject_factory` of `demo_fsl_feeds`: one fixed subject, `func` is the
dataset's single functional path. -/
def fsl_feeds_subject_factory (fslFunc : String) (output_dir : String) : List SubjectData :=
  [{ subject_id := "sub001", func := Func.single fslFunc,
     output_dir := joinPath output_dir "sub001" }]

/-- `subject_factory` of `demo_spm_multimodal_fmri`: one fixed subject,
`func` is the ordered two-run list `[func1, func2]`. -/
def spm_multimodal_subject_factory (func1 func2 : String) (output_dir : String) :
    List SubjectData :=
  [{ subject_id := "sub001", func := Func.multi [func1, func2],
     output_dir := joinPath output_dir "sub001" }]

/-- `subject_factory` of `demo_spm_auditory`: one fixed subject, `func` is a
one-element list around the dataset's single functional path. -/
def spm_auditory_subject_factory (audFunc : String) (output_dir : String) : List SubjectData :=
  [{ subject_id := "sub001", func := Func.multi [audFunc],
     output_dir := joinPath output_dir "sub001" }]

/-- The keyword arguments `**spm_realign_kwargs` forwarded verbatim to
`MRIMotionCorrection`; the only key the demos use is `n_sessions`. -/
structure RealignConfig where
  n_sessions : Option Nat := none
deriving DecidableEq

/-- The single-quote character used by the plot titles. -/
def quoteChar : Char := Char.ofNat 39

/-- `"Estimated motion for %s (session %i) of '%s'" % (subject_id, sess, dataset_id)`. -/
def plotTitle (subject_id : String) (sess : Nat) (dataset_id : String) : String :=
  "Estimated motion for " ++ subject_id ++ " (session " ++ toString sess ++ ") of " ++
    String.singleton quoteChar ++ dataset_id ++ String.singleton quoteChar

/-- The observable calls `_demo_runner` makes on its collaborators. -/
inductive Event where
  | fit (cfg : RealignConfig) (func : Func)
  | transform (output_dir : String) (reslice : Bool) (concat : Bool)
  | render (rp_filename : String) (title : String)
  | showPlots
deriving DecidableEq

/-- Abstract behaviour of the external collaborators: the motion-correction
engine (`fit`, `transform` — the latter exposing `_rp_filenames_`, one
realignment-parameter file per session, in session order) and the reporter
(`plot_spm_motion_parameters`).  `ε` is the collaborators' error type. -/
structure Engine (ε : Type) where
  fitResult : RealignConfig → Func → Except ε Unit
  transformResult : RealignConfig → Func → String → Except ε (List String)
  renderResult : String → String → Except ε Unit

/-- `for sess, rp_filename in zip(xrange(len(...)), ...): plot_spm_motion_parameters(...)`:
the render calls made for the realignment-parameter files, starting at
session index `sess`, together with the first reporter error if any. -/
def render_loop {ε : Type} (eng : Engine ε) (subject_id dataset_id : String) :
    Nat → List String → List Event × Option ε
  | _, [] => ([], none)
  | sess, rp :: rps =>
    let ev := Event.render rp (plotTitle subject_id sess dataset_id)
    match eng.renderResult rp (plotTitle subject_id sess dataset_id) with
    | Except.error e => ([ev], some e)
    | Except.ok _ =>
      let rest := render_loop eng subject_id dataset_id (sess + 1) rps
      (ev :: rest.1, rest.2)

/-- One iteration of the `_demo_runner` loop: instantiate the engine with the
forwarded keyword arguments, `fit(func)`, `transform(output_dir, reslice=True,
concat=True)`, one plot per session, then `plt.show()`.  The trace lists the
calls actually made; the option is the first error, propagated unmodified. -/
def run_subject {ε : Type} (eng : Engine ε) (cfg : RealignConfig) (dataset_id : String)
    (s : SubjectData) : List Event × Option ε :=
  let fitEv := Event.fit cfg s.func
  match eng.fitResult cfg s.func with
  | Except.error e => ([fitEv], some e)
  | Except.ok _ =>
    let trEv := Event.transform s.output_dir true true
    match eng.transformResult cfg s.func s.output_dir with
    | Except.error e => ([fitEv, trEv], some e)
    | Except.ok rps =>
      let rl := render_loop eng s.subject_id dataset_id 0 rps
      match rl.2 with
      | some e => (fitEv :: trEv :: rl.1, some e)
      | none => (fitEv :: trEv :: rl.1 ++ [Event.showPlots], none)

/-- `_demo_runner(subjects, dataset_id, **spm_realign_kwargs)`: the strictly
sequential loop over the subject records; the first error aborts the run. -/
def demo_runner {ε : Type} (eng : Engine ε) (cfg : RealignConfig) (dataset_id : String) :
    List SubjectData → List Event × Option ε
  | [] => ([], none)
  | s :: rest =>
    let r := run_subject eng cfg dataset_id s
    match r.2 with
    | some e => (r.1, some e)
    | none =>
      let r2 := demo_runner eng cfg dataset_id rest
      (r.1 ++ r2.1, r2.2)

/-- `demo_spm_multimodal_fmri`: runs the orchestrator over the two-run
single-subject factory, forwarding `n_sessions=2` to the engine. -/
def demo_spm_multimodal_fmri {ε : Type} (eng : Engine ε) (func1 func2 output_dir : String) :
    List Event × Option ε :=
  demo_runner eng { n_sessions := some 2 } "SPM Multimodal fMRI faces vs scrambled"
    (spm_multimodal_subject_factory func1 func2 output_dir)

/-- The realignment-parameter files `transform` exposes for a subject when it
succeeds (empty on failure; used only to state success-path traces). -/
def transform_rps {ε : Type} (eng : Engine ε) (cfg : RealignConfig) (s : SubjectData) :
    List String :=
  match eng.transformResult cfg s.func s.output_dir with
  | Except.ok rps => rps
  | Except.error _ => []

/-- The render events expected for one subject: one per
realignment-parameter file, numbered from `sess`, in list order. -/
def render_events (subject_id dataset_id : String) : Nat → List String → List Event
  | _, [] => []
  | sess, rp :: rps =>
    Event.render rp (plotTitle subject_id sess dataset_id) ::
      render_events subject_id dataset_id (sess + 1) rps

/-- The full trace expected for one subject on the success path. -/
def expected_subject_trace {ε : Type} (eng : Engine ε) (cfg : RealignConfig)
    (dataset_id : String) (s : SubjectData) : List Event :=
  Event.fit cfg s.func :: Event.transform s.output_dir true true ::
    render_events s.subject_id dataset_id 0 (transform_rps eng cfg s) ++ [Event.showPlots]

/-- A collaborator bundle every call of which succeeds, `transform` exposing
two realignment-parameter files (used to instantiate universally quantified
theorems at a concrete engine). -/
def okEngine : Engine Unit where
  fitResult := fun _ _ => Except.ok ()
  transformResult := fun _ _ _ => Except.ok ["rp_1.txt", "rp_2.txt"]
  renderResult := fun _ _ => Except.ok ()

/-- A collaborator bundle whose `fit` always fails with error code `7`. -/
def failFitEngine : Engine Nat where
  fitResult := fun _ _ => Except.error 7
  transformResult := fun _ _ _ => Except.ok []
  renderResult := fun _ _ => Except.ok ()

/-- A concrete subject record. -/
def subjA : SubjectData :=
  { subject_id := "sA", func := Func.single "/a.nii", output_dir := "/out/sA" }

/-- Another concrete subject record. -/
def subjB : SubjectData :=
  { subject_id := "sB", func := Func.single "/b.nii", output_dir := "/out/sB" }

/-! ## Helper lemmas -/

theorem exceptMapM_ok_length {α β ε : Type} (f : α → Except ε β) :
    ∀ (l : List α) (r : List β), exceptMapM f l = Except.ok r → r.length = l.length := by
  intro l
  induction l with
  | nil =>
    intro r h
    simp only [exceptMapM, Except.ok.injEq] at h
    simp [← h]
  | cons a t ih =>
    intro r h
    simp only [exceptMapM] at h
    cases hfa : f a with
    | error e => rw [hfa] at h; exact absurd h (by simp)
    | ok b =>
      rw [hfa] at h
      cases hrest : exceptMapM f t with
      | error e => rw [hrest] at h; exact absurd h (by simp)
      | ok bs =>
        rw [hrest] at h
        simp only [Except.ok.injEq] at h
        simp [← h, ih bs hrest]

theorem exceptMapM_ok_mem {α β ε : Type} (f : α → Except ε β) :
    ∀ (l : List α) (r : List β) (a : α), exceptMapM f l = Except.ok r → a ∈ l →
      ∃ b, f a = Except.ok b ∧ b ∈ r := by
  intro l
  induction l with
  | nil => intro r a _ ha; exact absurd ha (by simp)
  | cons a0 t ih =>
    intro r a h ha
    simp only [exceptMapM] at h
    cases hfa : f a0 with
    | error e => rw [hfa] at h; exact absurd h (by simp)
    | ok b =>
      rw [hfa] at h
      cases hrest : exceptMapM f t with
      | error e => rw [hrest] at h; exact absurd h (by simp)
      | ok bs =>
        rw [hrest] at h
        simp only [Except.ok.injEq] at h
        rcases List.mem_cons.mp ha with rfl | hat
        · exact ⟨b, hfa, by simp [← h]⟩
        · rcases ih bs a hrest hat with ⟨b2, hb2, hmem⟩
          exact ⟨b2, hb2, by simp [← h, hmem]⟩

theorem exceptMapM_error_mem {α β ε : Type} (f : α → Except ε β) :
    ∀ (l : List α) (e : ε), exceptMapM f l = Except.error e →
      ∃ a ∈ l, f a = Except.error e := by
  intro l
  induction l with
  | nil => intro e h; exact absurd h (by simp [exceptMapM])
  | cons a0 t ih =>
    intro e h
    simp only [exceptMapM] at h
    cases hfa : f a0 with
    | error e0 =>
      rw [hfa] at h
      simp only [Except.error.injEq] at h
      exact ⟨a0, by simp, by rw [hfa, h]⟩
    | ok b =>
      rw [hfa] at h
      cases hrest : exceptMapM f t with
      | error e0 =>
        rw [hrest] at h
        simp only [Except.error.injEq] at h
        rcases ih e0 hrest with ⟨a, hat, ha⟩
        exact ⟨a, by simp [hat], by rw [ha, h]⟩
      | ok bs => rw [hrest] at h; exact absurd h (by simp)

theorem exceptMapM_error_of_mem {α β ε : Type} (f : α → Except ε β) (c : ε)
    (hconst : ∀ a e, f a = Except.error e → e = c) :
    ∀ (l : List α) (a : α) (e : ε), a ∈ l → f a = Except.error e →
      exceptMapM f l = Except.error c := by
  intro l
  induction l with
  | nil => intro a e ha _; exact absurd ha (by simp)
  | cons a0 t ih =>
    intro a e ha hfa
    simp only [exceptMapM]
    cases hfa0 : f a0 with
    | error e0 => rw [hconst a0 e0 hfa0]
    | ok b =>
      rcases List.mem_cons.mp ha with rfl | hat
      · rw [hfa0] at hfa; exact absurd hfa (by simp)
      · rw [ih a e hat hfa]

theorem strContains_iff {n h : String} : strContains n h = true ↔ n.data <:+: h.data := by
  simp [strContains]

theorem basename_data_suffix (p : String) : (basename p).data <:+ p.data :=
  List.rtakeWhile_suffix notSlash p.data

theorem dirname_data_front (p : String) : (dirname p).data <+: p.data := by
  have hhead := List.rdropWhile_prefix notSlash p.data
  simp only [dirname]
  split
  · exact hhead
  · exact ( List.rdropWhile_prefix isSlash _).trans hhead

theorem subject_id_of_contained (x : String) : strContains (subject_id_of x) x = true := by
  have h1 : (subject_id_of x).data <:+ (dirname (dirname x)).data :=
    basename_data_suffix (dirname (dirname x))
  have h2 := dirname_data_front (dirname x)
  have h3 := dirname_data_front x
  exact strContains_iff.mpr ((h1.isInfix.trans h2.isInfix).trans h3.isInfix)

theorem derived_id_has_match {funcs : List String} {session : Nat} {sid : String}
    (hsid : sid ∈ derived_ids funcs session) :
    ∃ x ∈ session_filter funcs session, strContains sid x = true := by
  rcases List.mem_map.mp (List.mem_dedup.mp hsid) with ⟨x, hx, rfl⟩
  exact ⟨x, hx, subject_id_of_contained x⟩

theorem subject_matches_length_pos {funcs : List String} {session : Nat} {sid : String}
    (hsid : sid ∈ derived_ids funcs session) :
    0 < (subject_matches funcs session sid).length := by
  rcases derived_id_has_match hsid with ⟨x, hx, hc⟩
  exact List.length_pos.mpr (List.ne_nil_of_mem (List.mem_filter.mpr ⟨hx, hc⟩))

theorem nyu_yield_error_of_length {funcs : List String} {out : String} {session : Nat}
    {sid : String} (h : (subject_matches funcs session sid).length ≠ 1) :
    nyu_yield funcs out session sid = Except.error "AmbiguousSubjectError" := by
  unfold nyu_yield
  cases hm : subject_matches funcs session sid with
  | nil => rfl
  | cons f t =>
    cases t with
    | nil => exact absurd (by rw [hm]; rfl) h
    | cons g u => rfl

theorem nyu_yield_error_const {funcs : List String} {out : String} {session : Nat}
    {sid : String} {e : String} (h : nyu_yield funcs out session sid = Except.error e) :
    e = "AmbiguousSubjectError" := by
  unfold nyu_yield at h
  cases hm : subject_matches funcs session sid with
  | nil => rw [hm] at h; exact (Except.error.inj h).symm
  | cons f t =>
    cases t with
    | nil => rw [hm] at h; exact absurd h (by simp)
    | cons g u => rw [hm] at h; exact (Except.error.inj h).symm

theorem nyu_yield_error_length {funcs : List String} {out : String} {session : Nat}
    {sid : String} {e : String} (h : nyu_yield funcs out session sid = Except.error e) :
    (subject_matches funcs session sid).length ≠ 1 := by
  unfold nyu_yield at h
  cases hm : subject_matches funcs session sid with
  | nil => simp [hm]
  | cons f t =>
    cases t with
    | nil => rw [hm] at h; exact absurd h (by simp)
    | cons g u => simp [hm]

theorem nyu_yield_ok {funcs : List String} {out : String} {session : Nat}
    {sid : String} {b : SubjectData} (h : nyu_yield funcs out session sid = Except.ok b) :
    ∃ f, subject_matches funcs session sid = [f] ∧ b = nyu_record out session sid f := by
  unfold nyu_yield at h
  cases hm : subject_matches funcs session sid with
  | nil => rw [hm] at h; exact absurd h (by simp)
  | cons f t =>
    cases t with
    | nil => rw [hm] at h; exact ⟨f, rfl, (Except.ok.inj h).symm⟩
    | cons g u => rw [hm] at h; exact absurd h (by simp)

theorem render_loop_ok {ε : Type} (eng : Engine ε)
    (hr : ∀ rp t, eng.renderResult rp t = Except.ok ())
    (sid did : String) : ∀ (k : Nat) (rps : List String),
    render_loop eng sid did k rps = (render_events sid did k rps, none) := by
  intro k rps
  induction rps generalizing k with
  | nil => rfl
  | cons rp rest ih => simp [render_loop, render_events, hr, ih]

theorem run_subject_ok {ε : Type} (eng : Engine ε) (cfg : RealignConfig) (did : String)
    (hf : ∀ c f, eng.fitResult c f = Except.ok ())
    (ht : ∀ c f o, ∃ rps, eng.transformResult c f o = Except.ok rps)
    (hr : ∀ rp t, eng.renderResult rp t = Except.ok ())
    (s : SubjectData) :
    run_subject eng cfg did s = (expected_subject_trace eng cfg did s, none) := by
  rcases ht cfg s.func s.output_dir with ⟨rps, hrps⟩
  simp [run_subject, expected_subject_trace, transform_rps, hf, hrps,
        render_loop_ok eng hr]

theorem run_subject_head {ε : Type} (eng : Engine ε) (cfg : RealignConfig) (did : String)
    (s : SubjectData) :
    (run_subject eng cfg did s).1.head? = some (Event.fit cfg s.func) := by
  unfold run_subject
  cases hf : eng.fitResult cfg s.func with
  | error e => rfl
  | ok u =>
    cases htr : eng.transformResult cfg s.func s.output_dir with
    | error e => rfl
    | ok rps =>
      cases hrl : (render_loop eng s.subject_id did 0 rps).2 with
      | none => simp [hrl]
      | some e => simp [hrl]

theorem demo_runner_cons_head {ε : Type} (eng : Engine ε) (cfg : RealignConfig)
    (did : String) (s : SubjectData) (rest : List SubjectData) :
    (demo_runner eng cfg did (s :: rest)).1.head? = some (Event.fit cfg s.func) := by
  unfold demo_runner
  dsimp only
  cases h : (run_subject eng cfg did s).2 with
  | some e => exact run_subject_head eng cfg did s
  | none => simp [List.head?_append, run_subject_head eng cfg did s]

theorem demo_runner_cons {ε : Type} (eng : Engine ε) (cfg : RealignConfig) (did : String)
    (s : SubjectData) (rest : List SubjectData) :
    demo_runner eng cfg did (s :: rest) =
      match (run_subject eng cfg did s).2 with
      | some e => ((run_subject eng cfg did s).1, some e)
      | none => ((run_subject eng cfg did s).1 ++ (demo_runner eng cfg did rest).1,
                 (demo_runner eng cfg did rest).2) := rfl

theorem demo_runner_pre_ok {ε : Type} (eng : Engine ε) (cfg : RealignConfig) (did : String)
    (rest : List SubjectData) :
    ∀ (pre : List SubjectData), (∀ s2 ∈ pre, (run_subject eng cfg did s2).2 = none) →
      demo_runner eng cfg did (pre ++ rest) =
        (pre.flatMap (fun s2 => (run_subject eng cfg did s2).1) ++
          (demo_runner eng cfg did rest).1,
         (demo_runner eng cfg did rest).2) := by
  intro pre
  induction pre with
  | nil => intro _; simp
  | cons p t ih =>
    intro hpre
    have hp : (run_subject eng cfg did p).2 = none := hpre p (List.mem_cons_self p t)
    have iht := ih (fun s2 h2 => hpre s2 (List.mem_cons_of_mem p h2))
    simp only [List.cons_append]
    rw [demo_runner_cons, hp, iht]
    simp [List.append_assoc]

/-! ## Claims -/

/-- C1, counterexample: on the raw paths `["/d/session1/s1/f.nii",
"/d/session1/s2/f.nii"]` with requested session 1 the factory does not yield
two records — the directory two levels above each file is `session1` for
both paths, so the single derived identifier matches both paths and the
uniqueness assertion fails. -/
theorem C1_counterexample :
    nyu_subject_factory ["/d/session1/s1/f.nii", "/d/session1/s2/f.nii"] "/out" 1 =
      Except.error "AmbiguousSubjectError" := by decide

/-- C1 (amended): with the subject directory two levels above each file —
raw paths `["/d/session1/s1/func/f.nii", "/d/session1/s2/func/f.nii"]` — and
requested session 1, the factory yields exactly 2 records whose `output_dir`
paths end in `session1/s1` and `session1/s2`, each subject identifier being
the name of the directory two levels above the file. -/
theorem C1_amended_two_records :
    nyu_subject_factory ["/d/session1/s1/func/f.nii", "/d/session1/s2/func/f.nii"] "/out" 1 =
      Except.ok
        [{ subject_id := "s1", func := Func.single "/d/session1/s1/func/f.nii",
           output_dir := "/out/session1/s1" },
         { subject_id := "s2", func := Func.single "/d/session1/s2/func/f.nii",
           output_dir := "/out/session1/s2" }]
    ∧ subject_id_of "/d/session1/s1/func/f.nii" = "s1"
    ∧ subject_id_of "/d/session1/s2/func/f.nii" = "s2" := by decide

/-- C2: for every session-tagged raw listing and every derived subject
identifier, the factory yields the record built from the unique path of the
session-filtered subset containing that identifier, and fails with
`AmbiguousSubjectError` whenever the number of paths containing the
identifier is not one. -/
theorem C2_unique_match_or_ambiguous (funcs : List String) (out : String) (session : Nat) :
    (∀ sid ∈ derived_ids funcs session,
        (subject_matches funcs session sid).length ≠ 1 →
        nyu_subject_factory funcs out session = Except.error "AmbiguousSubjectError")
    ∧ (∀ recs, nyu_subject_factory funcs out session = Except.ok recs →
        ∀ sid ∈ derived_ids funcs session,
          ∃ f, subject_matches funcs session sid = [f] ∧
            nyu_record out session sid f ∈ recs) := by
  constructor
  · intro sid hsid hlen
    exact exceptMapM_error_of_mem _ _ (fun a e he => nyu_yield_error_const he)
      (derived_ids funcs session) sid _ hsid (nyu_yield_error_of_length hlen)
  · intro recs hok sid hsid
    rcases exceptMapM_ok_mem _ _ _ sid hok hsid with ⟨b, hb, hmem⟩
    rcases nyu_yield_ok hb with ⟨f, hf, rfl⟩
    exact ⟨f, hf, hmem⟩

/-- C2, witness: on the flat two-path listing the identifier `session1` is
derived, matches both paths, and the factory fails. -/
theorem C2_witness :
    nyu_subject_factory ["/d/session1/s1/f.nii", "/d/session1/s2/f.nii"] "/outdir" 1 =
      Except.error "AmbiguousSubjectError" :=
  (C2_unique_match_or_ambiguous ["/d/session1/s1/f.nii", "/d/session1/s2/f.nii"]
    "/outdir" 1).1 "session1" (by decide) (by decide)

/-- C5: whenever the session-tagged factory succeeds, the number of records
equals the number of distinct subject identifiers derived from the
session-filtered listing, and each of the three single-subject factories
always yields exactly 1 record. -/
theorem C5_record_count (funcs : List String) (out : String) (session : Nat) :
    (∀ recs, nyu_subject_factory funcs out session = Except.ok recs →
        recs.length = (derived_ids funcs session).length)
    ∧ (∀ f o, (fsl_feeds_subject_factory f o).length = 1)
    ∧ (∀ f1 f2 o, (spm_multimodal_subject_factory f1 f2 o).length = 1)
    ∧ (∀ f o, (spm_auditory_subject_factory f o).length = 1) :=
  ⟨fun recs h => exceptMapM_ok_length _ _ recs h,
   fun _ _ => rfl, fun _ _ _ => rfl, fun _ _ => rfl⟩

/-- C5, witness: the deep two-subject listing yields 2 records and has 2
distinct derived identifiers. -/
theorem C5_witness :
    [nyu_record "/out" 1 "s1" "/d/session1/s1/func/f.nii",
     nyu_record "/out" 1 "s2" "/d/session1/s2/func/f.nii"].length =
      (derived_ids ["/d/session1/s1/func/f.nii", "/d/session1/s2/func/f.nii"] 1).length :=
  (C5_record_count ["/d/session1/s1/func/f.nii", "/d/session1/s2/func/f.nii"] "/out" 1).1
    [nyu_record "/out" 1 "s1" "/d/session1/s1/func/f.nii",
     nyu_record "/out" 1 "s2" "/d/session1/s2/func/f.nii"] (by decide)

/-- C6: two invocations of the session-tagged factory over an unchanged raw
listing produce equal multisets of records — the factory is a pure function
of the raw listing, with no state carried between invocations. -/
theorem C6_restartable (funcs : List String) (out : String) (session : Nat)
    (r1 r2 : List SubjectData)
    (h1 : nyu_subject_factory funcs out session = Except.ok r1)
    (h2 : nyu_subject_factory funcs out session = Except.ok r2) :
    (r1 : Multiset SubjectData) = (r2 : Multiset SubjectData) := by
  rw [Except.ok.inj (h1.symm.trans h2)]

/-- C6, witness: two invocations on the deep two-subject listing agree. -/
theorem C6_witness :
    ([nyu_record "/out" 1 "s1" "/d/session1/s1/func/f.nii",
      nyu_record "/out" 1 "s2" "/d/session1/s2/func/f.nii"] : Multiset SubjectData) =
      ([nyu_record "/out" 1 "s1" "/d/session1/s1/func/f.nii",
        nyu_record "/out" 1 "s2" "/d/session1/s2/func/f.nii"] : Multiset SubjectData) :=
  C6_restartable ["/d/session1/s1/func/f.nii", "/d/session1/s2/func/f.nii"] "/out" 1
    _ _ (by decide) (by decide)

/-- C8: on an empty subject sequence the orchestrator terminates normally
with no calls and no error, and a requested session matching zero paths
makes the factory yield the empty sequence without error. -/
theorem C8_empty_sequence (ε : Type) (eng : Engine ε) (cfg : RealignConfig) (did : String)
    (funcs : List String) (out : String) (session : Nat)
    (hempty : session_filter funcs session = []) :
    demo_runner eng cfg did [] = ([], none)
    ∧ nyu_subject_factory funcs out session = Except.ok [] := by
  refine ⟨rfl, ?_⟩
  unfold nyu_subject_factory derived_ids
  rw [hempty]
  rfl

/-- C8, witness: a listing with no `session1` marker filters to nothing. -/
theorem C8_witness :
    demo_runner okEngine {} "NYU resting state" [] = ([], none)
    ∧ nyu_subject_factory ["/d/other/f.nii"] "/out" 1 = Except.ok [] :=
  C8_empty_sequence Unit okEngine {} "NYU resting state" ["/d/other/f.nii"] "/out" 1
    (by decide)

/-- C9: the session filter is a plain substring test on the whole path, so
for requested session 1 any listed path containing the marker `session10`
also contains `session1` and lands in the session-1 filtered subset. -/
theorem C9_substring_filter (funcs : List String) (x : String)
    (hx : x ∈ funcs) (h10 : strContains "session10" x = true) :
    x ∈ session_filter funcs 1 := by
  have htag : sessionTag 1 = "session1" := by decide
  have h1 : strContains (sessionTag 1) x = true := by
    rw [htag]
    exact strContains_iff.mpr
      ((by decide : ("session1".data) <:+: ("session10".data)).trans
        (strContains_iff.mp h10))
  exact List.mem_filter.mpr ⟨hx, h1⟩

/-- C9, witness: a `session10` path is kept by the session-1 filter. -/
theorem C9_witness :
    "/d/session10/s1/f.nii" ∈ session_filter ["/d/session10/s1/f.nii"] 1 :=
  C9_substring_filter ["/d/session10/s1/f.nii"] "/d/session10/s1/f.nii"
    (by decide) (by decide)

/-- C10: every derived identifier is a directory-component name of at least
one path of the filtered subset and hence a substring of it, so the set of
matching paths is never empty; the factory's ambiguity failure therefore can
only arise from more than one match, never from zero. -/
theorem C10_zero_match_unreachable (funcs : List String) (out : String) (session : Nat)
    (sid : String) (hsid : sid ∈ derived_ids funcs session) :
    (∃ x ∈ session_filter funcs session, strContains sid x = true)
    ∧ (subject_matches funcs session sid).length ≠ 0
    ∧ (nyu_subject_factory funcs out session = Except.error "AmbiguousSubjectError" →
        ∃ sid2 ∈ derived_ids funcs session,
          2 ≤ (subject_matches funcs session sid2).length) := by
  refine ⟨derived_id_has_match hsid, Nat.pos_iff_ne_zero.mp (subject_matches_length_pos hsid), ?_⟩
  intro herr
  rcases exceptMapM_error_mem _ _ _ herr with ⟨sid2, hsid2, he⟩
  have hne1 := nyu_yield_error_length he
  have hpos := subject_matches_length_pos hsid2
  exact ⟨sid2, hsid2, by omega⟩

/-- C10, witness: on the flat two-path listing the derived identifier
`session1` has a non-empty match set, and the factory's failure there comes
with an identifier matching at least two paths. -/
theorem C10_witness :
    (∃ x ∈ session_filter ["/d/session1/s1/f.nii", "/d/session1/s2/f.nii"] 1,
        strContains "session1" x = true)
    ∧ (subject_matches ["/d/session1/s1/f.nii", "/d/session1/s2/f.nii"] 1
        "session1").length ≠ 0
    ∧ (nyu_subject_factory ["/d/session1/s1/f.nii", "/d/session1/s2/f.nii"] "/o" 1 =
          Except.error "AmbiguousSubjectError" →
        ∃ sid2 ∈ derived_ids ["/d/session1/s1/f.nii", "/d/session1/s2/f.nii"] 1,
          2 ≤ (subject_matches ["/d/session1/s1/f.nii", "/d/session1/s2/f.nii"] 1
            sid2).length) :=
  C10_zero_match_unreachable ["/d/session1/s1/f.nii", "/d/session1/s2/f.nii"] "/o" 1
    "session1" (by decide)

/-- C3: on an all-success run, the orchestrator's trace is exactly, for each
subject in input order: one `fit`, then one `transform`, then one `render`
per session in the order of `transform`'s output (then the blocking plot
display), with no error. -/
theorem C3_call_order (ε : Type) (eng : Engine ε) (cfg : RealignConfig) (did : String)
    (hf : ∀ c f, eng.fitResult c f = Except.ok ())
    (ht : ∀ c f o, ∃ rps, eng.transformResult c f o = Except.ok rps)
    (hr : ∀ rp t, eng.renderResult rp t = Except.ok ())
    (subjects : List SubjectData) :
    demo_runner eng cfg did subjects =
      (subjects.flatMap (expected_subject_trace eng cfg did), none) := by
  induction subjects with
  | nil => rfl
  | cons s rest ih =>
    unfold demo_runner
    dsimp only
    rw [run_subject_ok eng cfg did hf ht hr s, ih]
    simp

/-- C3, witness: a concrete one-subject run on a total engine produces the
expected `fit`, `transform`, `render`, `render` trace. -/
theorem C3_witness :
    demo_runner okEngine {} "NYU resting state" [subjA] =
      ([subjA].flatMap (expected_subject_trace okEngine {} "NYU resting state"), none) :=
  C3_call_order Unit okEngine {} "NYU resting state" (fun _ _ => rfl)
    (fun _ _ _ => ⟨["rp_1.txt", "rp_2.txt"], rfl⟩) (fun _ _ => rfl) [subjA]

/-- C4: if a step fails for some subject (every earlier subject having
succeeded), the run's trace consists of the earlier subjects' calls followed
by exactly the failing subject's calls up to the failure — nothing for any
later subject, no retry — and the error propagates unmodified; in
particular a `fit` failure leaves only the single `fit` call for that
subject. -/
theorem C4_error_propagates (ε : Type) (eng : Engine ε) (cfg : RealignConfig) (did : String)
    (pre : List SubjectData) (s : SubjectData) (post : List SubjectData) (e : ε)
    (hpre : ∀ s2 ∈ pre, (run_subject eng cfg did s2).2 = none)
    (hs : (run_subject eng cfg did s).2 = some e) :
    demo_runner eng cfg did (pre ++ s :: post) =
      (pre.flatMap (fun s2 => (run_subject eng cfg did s2).1) ++
        (run_subject eng cfg did s).1, some e)
    ∧ (∀ e2, eng.fitResult cfg s.func = Except.error e2 →
        (run_subject eng cfg did s).1 = [Event.fit cfg s.func]) := by
  constructor
  · have h2 : demo_runner eng cfg did (s :: post) =
        ((run_subject eng cfg did s).1, some e) := by
      unfold demo_runner
      dsimp only
      rw [hs]
    rw [demo_runner_pre_ok eng cfg did (s :: post) pre hpre, h2]
  · intro e2 hfit
    unfold run_subject
    rw [hfit]

/-- C4, witness: with an engine whose `fit` fails with code 7, the run over
`[subjA, subjB]` stops inside `subjA` after the single `fit` call and
surfaces error 7; `subjB` is never touched. -/
theorem C4_witness :
    demo_runner failFitEngine {} "NYU resting state" ([] ++ subjA :: [subjB]) =
      (List.flatMap []
          (fun s2 => (run_subject failFitEngine {} "NYU resting state" s2).1) ++
        (run_subject failFitEngine {} "NYU resting state" subjA).1, some 7)
    ∧ (∀ e2, failFitEngine.fitResult {} subjA.func = Except.error e2 →
        (run_subject failFitEngine {} "NYU resting state" subjA).1 =
          [Event.fit {} subjA.func]) :=
  C4_error_propagates Nat failFitEngine {} "NYU resting state" [] subjA [subjB] 7
    (by simp) rfl

/-- C7: the two-run single-subject factory yields exactly one record whose
`func` is the ordered list `[func1, func2]`, and the multimodal demo
forwards the engine configuration with the session-count hint `n_sessions`
equal to 2 — the `fit` call of its trace carries that configuration. -/
theorem C7_multimodal (ε : Type) (eng : Engine ε) (func1 func2 output_dir : String) :
    spm_multimodal_subject_factory func1 func2 output_dir =
      [{ subject_id := "sub001", func := Func.multi [func1, func2],
         output_dir := joinPath output_dir "sub001" }]
    ∧ demo_spm_multimodal_fmri eng func1 func2 output_dir =
      demo_runner eng { n_sessions := some 2 } "SPM Multimodal fMRI faces vs scrambled"
        (spm_multimodal_subject_factory func1 func2 output_dir)
    ∧ (demo_spm_multimodal_fmri eng func1 func2 output_dir).1.head? =
      some (Event.fit { n_sessions := some 2 } (Func.multi [func1, func2])) :=
  ⟨rfl, rfl,
   demo_runner_cons_head eng { n_sessions := some 2 }
     "SPM Multimodal fMRI faces vs scrambled"
     { subject_id := "sub001", func := Func.multi [func1, func2],
       output_dir := joinPath output_dir "sub001" } []⟩
